import Mathlib

/-!
Verification of the form-builder repository's core logic:
the server-side answer-validation/submission pipeline
(`src/app/api/share/[token]`-style POST handler) and the client-side
builder reducer (`builderReducer`).  Definitions are shallow embeddings
of the TypeScript source; theorems settle the specification's claims.
-/

namespace FormApp

/-! ## Answer values

`zod` restricts an answer's `value` to
`string | string[] | number | boolean | null`; numeric values are
modelled as integers (the only numerals the development exercises). -/

inductive JValue where
  | jstr (s : String)
  | jarr (xs : List String)
  | jnum (n : Int)
  | jbool (b : Bool)
  | jnull
deriving DecidableEq, Repr

/-- One raw entry of a field's persisted `options` JSON array: an object whose
`value` key is a string (`some v`), or anything else (`none`). -/
structure RawOption where
  value : Option String
deriving DecidableEq, Repr

/-- A form field as selected by the submission route
(`id`, `type`, `required`, `options`); `type` is a plain string in the
database (`z.string()` on form creation), so unsupported values are
representable. -/
structure SField where
  id : String
  type : String
  required : Bool
  options : Option (List RawOption)
deriving DecidableEq, Repr

/-- A submitted answer (`fieldId` plus zod-typed `value`). -/
structure Answer where
  fieldId : String
  value : JValue
deriving DecidableEq, Repr

/-- A validation issue `{fieldId, message}`. -/
structure Issue where
  fieldId : String
  message : String
deriving DecidableEq, Repr

/-- An entry of `answersToPersist`: a normalized value bound to a field id. -/
structure PersistAnswer where
  fieldId : String
  value : JValue
deriving DecidableEq, Repr

/-- Models the JavaScript `String.prototype.trim()` (drop leading and trailing
whitespace), written on the character list so that it reduces in the kernel. -/
def jsTrim (s : String) : String :=
  ⟨((s.data.dropWhile Char.isWhitespace).reverse.dropWhile Char.isWhitespace).reverse⟩

/-- Splits a character list at every occurrence of the separator character. -/
def splitOnChar (c : Char) : List Char → List (List Char)
  | [] => [[]]
  | x :: xs =>
    match splitOnChar c xs with
    | [] => if x = c then [[], []] else [[x]]
    | h :: t => if x = c then [] :: h :: t else (x :: h) :: t

/-- Embeds `parseOptions`: keep the `value` of each option object when it is a
truthy (non-empty) string. -/
def parseOptions : Option (List RawOption) → List String
  | none => []
  | some raw => raw.filterMap fun item =>
      match item.value with
      | some v => if v = "" then none else some v
      | none => none

/-- Embeds `ensureString`: the value itself when it is a string, else null. -/
def ensureString : JValue → Option String
  | .jstr s => some s
  | _ => none

/-- Embeds `ensureStringArray`: the array when the value is an array (zod has
already guaranteed its elements are strings, so the source's string filter
keeps every element), else null. -/
def ensureStringArray : JValue → Option (List String)
  | .jarr xs => some xs
  | _ => none

/-- Models the test of the email regular expression
`^[^\s@]+@[^\s@]+\.[^\s@]+$`: one or more characters that are neither
whitespace nor `@`, an `@`, one or more such characters, a `.`, and one or
more such characters. -/
def emailRegexTest (s : String) : Bool :=
  match splitOnChar '@' s.data with
  | [lcl, domain] =>
      !lcl.isEmpty && lcl.all (fun c => !c.isWhitespace) &&
      domain.all (fun c => !c.isWhitespace) &&
      ((domain.drop 1).dropLast.contains '.')
  | _ => false

/-- Models the JavaScript `Number(...)` coercion used on trimmed number
answers, restricted to optionally signed decimal integer literals; every
other non-empty string yields `none` (NaN). -/
def jsNumber (s : String) : Option Int :=
  let core : List Char → Option Int := fun ds =>
    if ds ≠ [] ∧ ds.all Char.isDigit then
      some (ds.foldl (fun acc c => acc * 10 + ((c.toNat : Int) - 48)) 0)
    else none
  match s.toList with
  | '-' :: rest => (core rest).map (fun n => -n)
  | '+' :: rest => core rest
  | ds => core ds

/-- Reads a list of decimal digits as a natural number. -/
def digitsToNat (ds : List Char) : Nat :=
  ds.foldl (fun acc c => acc * 10 + (c.toNat - 48)) 0

/-- Models `isValidDate` (finiteness of `Date.parse value`), on ISO
`YYYY-MM-DD` date strings. -/
def isValidDate (s : String) : Bool :=
  match splitOnChar '-' s.data with
  | [y, m, d] =>
      y.length = 4 && y.all Char.isDigit &&
      m.length = 2 && m.all Char.isDigit &&
      d.length = 2 && d.all Char.isDigit &&
      (1 ≤ digitsToNat m && digitsToNat m ≤ 12) &&
      (1 ≤ digitsToNat d && digitsToNat d ≤ 31)
  | _ => false

/-- Outcome of the per-field `switch` of the validation loop: push one issue,
push one normalized answer, or neither. -/
inductive FieldOutcome where
  | issue (message : String)
  | keep (value : JValue)
  | skip
deriving DecidableEq, Repr

/-- Embeds the body of `form.fields.forEach` in the submission POST handler:
locate the first answer for the field, then run the type-specific
normalization branch. -/
def fieldStep (answers : List Answer) (f : SField) : FieldOutcome :=
  match answers.find? (fun a => a.fieldId == f.id) with
  | none => if f.required then .issue "Required field is missing" else .skip
  | some answer =>
    let rawValue := answer.value
    let options := parseOptions f.options
    if f.type == "short_text" || f.type == "long_text" then
      let value := (match ensureString rawValue with
        | some s => jsTrim s
        | none => "")
      if f.required && value.length == 0 then .issue "Response is required"
      else if !f.required && value.length == 0 then .skip
      else .keep (.jstr value)
    else if f.type == "email" then
      let value := (match ensureString rawValue with
        | some s => jsTrim s
        | none => "")
      if f.required && value.length == 0 then .issue "Email is required"
      else if value.length > 0 && !emailRegexTest value then
        .issue "Email format looks invalid"
      else if !f.required && value.length == 0 then .skip
      else .keep (.jstr value)
    else if f.type == "number" then
      match rawValue with
      | .jnum n => .keep (.jnum n)
      | .jstr s =>
        let trimmed := jsTrim s
        if trimmed.length == 0 then
          if f.required then .issue "Number is required" else .skip
        else
          match jsNumber trimmed with
          | some n => .keep (.jnum n)
          | none =>
            if f.required then .issue "Number is required"
            else .issue "Number could not be parsed"
      | _ =>
        if f.required then .issue "Number is required"
        else .issue "Number could not be parsed"
    else if f.type == "dropdown" then
      let value := (ensureString rawValue).getD ""
      if f.required && value.length == 0 then .issue "Selection is required"
      else if value.length == 0 then .skip
      else if options.length > 0 && !options.contains value then
        .issue "Selected option is invalid"
      else .keep (.jstr value)
    else if f.type == "checkbox" then
      match ensureStringArray rawValue with
      | none => if f.required then .issue "At least one option is required" else .skip
      | some values =>
        if values.length == 0 then
          if f.required then .issue "At least one option is required" else .skip
        else if options.length > 0 &&
            (values.filter (fun entry => !options.contains entry)).length > 0 then
          .issue "One or more options are invalid"
        else .keep (.jarr values)
    else if f.type == "date" then
      let value := (ensureString rawValue).getD ""
      if f.required && value.length == 0 then .issue "Date is required"
      else if value.length > 0 && !isValidDate value then
        .issue "Date could not be parsed"
      else if !f.required && value.length == 0 then .skip
      else .keep (.jstr value)
    else .issue "Unsupported field type"

/-- Embeds the first scan of the handler: every answer whose `fieldId` is not
a key of `fieldMap` is flagged. -/
def unknownFieldIssues (fields : List SField) (answers : List Answer) : List Issue :=
  answers.filterMap fun a =>
    if fields.any (fun f => f.id == a.fieldId) then none
    else some ⟨a.fieldId, "Field does not belong to this form"⟩

/-- Issues pushed by the per-field loop, in field order. -/
def firstPassIssues (fields : List SField) (answers : List Answer) : List Issue :=
  fields.filterMap fun f =>
    match fieldStep answers f with
    | .issue m => some ⟨f.id, m⟩
    | _ => none

/-- The `answersToPersist` accumulator after the per-field loop. -/
def answersToPersist (fields : List SField) (answers : List Answer) : List PersistAnswer :=
  fields.filterMap fun f =>
    match fieldStep answers f with
    | .keep v => some ⟨f.id, v⟩
    | _ => none

/-- Embeds the required re-scan: for every required field with no entry in
`answersToPersist`, push a "Required field is missing" issue. -/
def secondPassIssues (fields : List SField) (answers : List Answer) : List Issue :=
  (fields.filter (fun f => f.required)).filterMap fun f =>
    if (answersToPersist fields answers).any (fun p => p.fieldId == f.id) then none
    else some ⟨f.id, "Required field is missing"⟩

/-- The whole Answer Validation Engine: the issue list, in push order
(unknown-field scan, per-field loop, required re-scan), together with the
normalized answers. -/
def validateAnswers (fields : List SField) (answers : List Answer) :
    List Issue × List PersistAnswer :=
  (unknownFieldIssues fields answers ++ firstPassIssues fields answers
      ++ secondPassIssues fields answers,
    answersToPersist fields answers)

/-- Embeds the submission decision: non-empty issue list rejects the whole
submission with the issues; otherwise the normalized answers are persisted. -/
def submitAnswers (fields : List SField) (answers : List Answer) :
    Except (List Issue) (List PersistAnswer) :=
  let r := validateAnswers fields answers
  if r.1.length > 0 then .error r.1 else .ok r.2

/-! ## The request-parsing boundary (`createResponseSchema`) -/

/-- The optional `meta` object of a submission body. -/
structure SubmissionMeta where
  fingerprint : Option String
  timezone : Option String
  userAgent : Option String
deriving DecidableEq, Repr

/-- A structurally well-shaped submission request body, before the zod
refinements are checked. -/
structure SubmissionBody where
  completionMs : Option Int
  answers : List Answer
  meta : Option SubmissionMeta
  honey : Option String
deriving DecidableEq, Repr

/-- A zod issue, already mapped to `{path: issue.path.join("."), message}`. -/
structure ParseIssue where
  path : String
  message : String
deriving DecidableEq, Repr

/-- Models `createResponseSchema.safeParse` on structurally well-shaped
bodies: the zod refinements are checked and their issues collected
(`completionMs` int/positive/max checks carry zod's default messages; the
two custom messages are the ones written in the source). -/
def createResponseSchemaIssues (b : SubmissionBody) : List ParseIssue :=
  (match b.completionMs with
    | some n =>
      (if n > 0 then [] else [⟨"completionMs", "Number must be greater than 0"⟩]) ++
        (if n ≤ 1000 * 60 * 30 then []
          else [⟨"completionMs", "Number must be less than or equal to 1800000"⟩])
    | none => []) ++
  (if b.answers.length ≥ 1 then [] else [⟨"answers", "At least one answer is required"⟩]) ++
  (b.answers.enum.filterMap fun p =>
    if p.2.fieldId.length ≥ 1 then none
    else some ⟨"answers." ++ toString p.1 ++ ".fieldId", "Field ID is required"⟩)

/-- The observable outcome of the submission POST handler after
authentication: rejected at the zod parse boundary (422), rejected by the
honeypot guard (400), form not found (404), rejected by the Answer
Validation Engine (422), or persisted (201). -/
inductive PostResult where
  | parseError (issues : List ParseIssue)
  | honeypot
  | formNotFound
  | validationError (issues : List Issue)
  | created (answers : List PersistAnswer)
deriving DecidableEq, Repr

/-- Embeds the control flow of the submission POST handler after
authentication: zod parse, honeypot guard, form lookup (modelled as an
optional field list), then the Answer Validation Engine and the
all-or-nothing persistence decision. -/
def handleSubmission (body : SubmissionBody) (formFields : Option (List SField)) :
    PostResult :=
  let parseIssues := createResponseSchemaIssues body
  let honeyTripped : Bool :=
    match body.honey with
    | some h => (jsTrim h).length > 0
    | none => false
  if parseIssues.length > 0 then .parseError parseIssues
  else if honeyTripped then .honeypot
  else
    match formFields with
    | none => .formNotFound
    | some fields =>
      match submitAnswers fields body.answers with
      | .error issues => .validationError issues
      | .ok persist => .created persist

/-! ## The builder state machine (`builderReducer`) -/

/-- The closed field-type enumeration of the builder. -/
inductive FieldType where
  | short_text | long_text | email | number | dropdown | checkbox | date
deriving DecidableEq, Repr, Inhabited

/-- The light/dark theme mode. -/
inductive ThemeMode where
  | light | dark
deriving DecidableEq, Repr

/-- The edit/preview builder mode. -/
inductive BuilderMode where
  | edit | preview
deriving DecidableEq, Repr

/-- The closed semantic-tag enumeration of theme tokens. -/
inductive ThemeTag where
  | formTitle | sectionTitle | label | helper | input | button
deriving DecidableEq, Repr

/-- A value stored in a theme-token attribute (`string | number`). -/
inductive TVal where
  | str (s : String)
  | num (n : Int)
deriving DecidableEq, Repr

/-- A design token of the theme. -/
structure ThemeToken where
  color : TVal
  fontSize : TVal
  fontFamily : TVal
  fontWeight : TVal
  background : Option TVal
  borderColor : Option TVal
deriving DecidableEq, Repr

/-- The keys of a `ThemeToken` (`keyof ThemeToken`). -/
inductive TokenKey where
  | color | fontSize | fontFamily | fontWeight | background | borderColor
deriving DecidableEq, Repr

/-- Embeds the computed-key object spread `{...token, [key]: value}`. -/
def setTokenAttr (t : ThemeToken) (key : TokenKey) (v : TVal) : ThemeToken :=
  match key with
  | .color => { t with color := v }
  | .fontSize => { t with fontSize := v }
  | .fontFamily => { t with fontFamily := v }
  | .fontWeight => { t with fontWeight := v }
  | .background => { t with background := some v }
  | .borderColor => { t with borderColor := some v }

/-- Reads one attribute of a token (`none` for an absent optional attribute). -/
def getTokenAttr (t : ThemeToken) (key : TokenKey) : Option TVal :=
  match key with
  | .color => some t.color
  | .fontSize => some t.fontSize
  | .fontFamily => some t.fontFamily
  | .fontWeight => some t.fontWeight
  | .background => t.background
  | .borderColor => t.borderColor

/-- The surface-color keys of a snapshot (`keyof Omit<ThemeSnapshot, "tokens">`). -/
inductive SurfaceKey where
  | background | panel | card | border | text | muted
deriving DecidableEq, Repr

/-- A per-mode theme snapshot: surface colors plus one token per tag. -/
structure ThemeSnapshot where
  background : String
  panel : String
  card : String
  border : String
  text : String
  muted : String
  tokens : ThemeTag → ThemeToken

/-- Embeds the computed-key object spread `{...snapshot, [key]: value}`. -/
def setSurface (s : ThemeSnapshot) (key : SurfaceKey) (v : String) : ThemeSnapshot :=
  match key with
  | .background => { s with background := v }
  | .panel => { s with panel := v }
  | .card => { s with card := v }
  | .border => { s with border := v }
  | .text => { s with text := v }
  | .muted => { s with muted := v }

/-- The theme state: the active mode and both snapshots
(`Record<ThemeMode, ThemeSnapshot>` modelled as a function). -/
structure ThemeState where
  mode : ThemeMode
  palette : ThemeMode → ThemeSnapshot

/-- An option row of a dropdown/checkbox field. -/
structure FieldOption where
  id : String
  label : String
  value : String
deriving DecidableEq, Repr

/-- A builder-side form field. -/
structure FormField where
  id : String
  type : FieldType
  label : String
  description : Option String
  placeholder : Option String
  required : Bool
  options : Option (List FieldOption)
  minLength : Option Int
  maxLength : Option Int
  min : Option Int
  max : Option Int
  step : Option Int
deriving DecidableEq, Repr, Inhabited

/-- `Partial<FormField>` (minus nothing): each key may be present or absent;
for a key of optional type a present entry carries the new optional value. -/
structure FieldChanges where
  id : Option String := none
  type : Option FieldType := none
  label : Option String := none
  description : Option (Option String) := none
  placeholder : Option (Option String) := none
  required : Option Bool := none
  options : Option (Option (List FieldOption)) := none
  minLength : Option (Option Int) := none
  maxLength : Option (Option Int) := none
  min : Option (Option Int) := none
  max : Option (Option Int) := none
  step : Option (Option Int) := none
deriving DecidableEq, Repr

/-- Embeds the shallow merge `{...field, ...changes}`. -/
def applyFieldChanges(f : FormField) (c : FieldChanges) : FormField :=
  { id := c.id.getD f.id
    type := c.type.getD f.type
    label := c.label.getD f.label
    description := c.description.getD f.description
    placeholder := c.placeholder.getD f.placeholder
    required := c.required.getD f.required
    options := c.options.getD f.options
    minLength := c.minLength.getD f.minLength
    maxLength := c.maxLength.getD f.maxLength
    min := c.min.getD f.min
    max := c.max.getD f.max
    step := c.step.getD f.step }

/-- The form-level metadata. -/
structure FormMeta where
  title : String
  description : String
  submitLabel : String
deriving DecidableEq, Repr

/-- `Partial<FormMeta>`. -/
structure MetaChanges where
  title : Option String := none
  description : Option String := none
  submitLabel : Option String := none
deriving DecidableEq, Repr

/-- Embeds the shallow merge `{...formMeta, ...changes}`. -/
def applyMetaChanges (m : FormMeta) (c : MetaChanges) : FormMeta :=
  { title := c.title.getD m.title
    description := c.description.getD m.description
    submitLabel := c.submitLabel.getD m.submitLabel }

/-- The direction payload of `REORDER_FIELD`. -/
inductive ReorderDirection where
  | up | down
deriving DecidableEq, Repr

/-- The whole builder state. -/
structure BuilderState where
  fields : List FormField
  selectedFieldId : Option String
  formMeta : FormMeta
  mode : BuilderMode
  theme : ThemeState

/-- The builder action union. -/
inductive BuilderAction where
  | ADD_FIELD (payload : FormField)
  | REMOVE_FIELD (id : String)
  | DUPLICATE_FIELD (id : String)
  | SELECT_FIELD (id : Option String)
  | UPDATE_FIELD (id : String) (changes : FieldChanges)
  | REORDER_FIELD (id : String) (direction : ReorderDirection)
  | UPDATE_FORM_META (changes : MetaChanges)
  | SET_MODE (payload : BuilderMode)
  | SET_THEME_MODE (payload : ThemeMode)
  | UPDATE_THEME_TOKEN (tag : ThemeTag) (key : TokenKey) (value : TVal)
  | UPDATE_THEME_SURFACE (key : SurfaceKey) (value : String)

/-- Embeds the `DUPLICATE_FIELD` label computation: append `" (copy)"`, then
`.replace(/\(copy\) \(copy\)$/i, "(copy)")` (the regular expression matches
only at the end of the string, the thirteen characters `"(copy) (copy)"`,
case-insensitively), then `.trim()`. -/
def dupLabel (label : String) : String :=
  let s := label ++ " (copy)"
  let suffix := (s.data.drop (s.data.length - 13)).map Char.toLower
  let s2 : String :=
    if suffix = "(copy) (copy)".data then
      ⟨s.data.take (s.data.length - 13) ++ "(copy)".data⟩
    else s
  jsTrim s2

/-- Embeds the clone construction of `DUPLICATE_FIELD`: fresh id, label run
through `dupLabel`, fresh option ids.  `createId()` is nondeterministic
(`crypto.randomUUID`), so the reducer is parameterized by a supply `fresh` of
generated ids, consumed in call order: `fresh 0` for the clone, `fresh (k+1)`
for its `k`-th option. -/
def duplicateClone (fresh : Nat → String) (f : FormField) : FormField :=
  { f with
    id := fresh 0
    label := dupLabel f.label
    options := f.options.map fun os =>
      os.enum.map fun p => { p.2 with id := fresh (p.1 + 1) } }

/-- Embeds `builderReducer`. -/
def builderReducer (fresh : Nat → String) (state : BuilderState)
    (action : BuilderAction) : BuilderState :=
  match action with
  | .ADD_FIELD f =>
    { state with fields := state.fields ++ [f], selectedFieldId := some f.id }
  | .REMOVE_FIELD i =>
    { state with
      fields := state.fields.filter (fun f => f.id != i)
      selectedFieldId :=
        if state.selectedFieldId = some i then none else state.selectedFieldId }
  | .DUPLICATE_FIELD i =>
    match state.fields.find? (fun f => f.id == i) with
    | none => state
    | some field =>
      let clone := duplicateClone fresh field
      let index := state.fields.findIdx (fun f => f.id == field.id)
      { state with
        fields := state.fields.insertIdx (index + 1) clone
        selectedFieldId := some clone.id }
  | .SELECT_FIELD i => { state with selectedFieldId := i }
  | .UPDATE_FIELD i changes =>
    { state with
      fields := state.fields.map fun f =>
        if f.id == i then applyFieldChanges f changes else f }
  | .REORDER_FIELD i direction =>
    match state.fields.findIdx? (fun f => f.id == i) with
    | none => state
    | some index =>
      let targetIndex : Int :=
        if direction = .up then (index : Int) - 1 else (index : Int) + 1
      if targetIndex < 0 ∨ (state.fields.length : Int) ≤ targetIndex then state
      else
        match state.fields[index]? with
        | none => state
        | some removed =>
          { state with
            fields := (state.fields.eraseIdx index).insertIdx targetIndex.toNat removed }
  | .UPDATE_FORM_META m => { state with formMeta := applyMetaChanges state.formMeta m }
  | .SET_MODE m => { state with mode := m }
  | .SET_THEME_MODE m => { state with theme := { state.theme with mode := m } }
  | .UPDATE_THEME_TOKEN tag key value =>
    let mode := state.theme.mode
    let current := state.theme.palette mode
    let newSnap : ThemeSnapshot :=
      { current with
        tokens := fun t =>
          if t = tag then setTokenAttr (current.tokens tag) key value
          else current.tokens t }
    { state with
      theme :=
        { state.theme with
          palette := fun m => if m = mode then newSnap else state.theme.palette m } }
  | .UPDATE_THEME_SURFACE key value =>
    let mode := state.theme.mode
    let current := state.theme.palette mode
    let newSnap := setSurface current key value
    { state with
      theme :=
        { state.theme with
          palette := fun m => if m = mode then newSnap else state.theme.palette m } }

/-! ## Concrete sample values used by witnesses and counterexamples -/

/-- A theme token with blank attributes. -/
def blankToken : ThemeToken := ⟨.str "", .str "", .str "", .num 0, none, none⟩

/-- A theme snapshot with blank surfaces and blank tokens. -/
def blankSnapshot : ThemeSnapshot :=
  { background := "", panel := "", card := "", border := "", text := "", muted := ""
    tokens := fun _ => blankToken }

/-- A small form-meta value. -/
def sampleMeta : FormMeta := ⟨"Project inquiry", "", "Send request"⟩

/-- A single short-text field labeled "Name". -/
def sampleField : FormField :=
  { id := "a", type := .short_text, label := "Name", description := none,
    placeholder := none, required := true, options := none, minLength := none,
    maxLength := none, min := none, max := none, step := none }

/-- A builder state holding `sampleField` alone. -/
def sampleState : BuilderState :=
  { fields := [sampleField], selectedFieldId := none, formMeta := sampleMeta,
    mode := .edit, theme := ⟨.light, fun _ => blankSnapshot⟩ }

/-- A builder state whose selection dangles (no field carries id "x"). -/
def danglingSelectionState : BuilderState :=
  { fields := [], selectedFieldId := some "x", formMeta := sampleMeta,
    mode := .edit, theme := ⟨.light, fun _ => blankSnapshot⟩ }

/-- A fixed id supply. -/
def fresh0 : Nat → String := fun _ => "fresh-id"

/-! ## Helper lemmas about the validation engine -/

theorem fieldStep_nil (f : SField) :
    fieldStep [] f =
      if f.required then FieldOutcome.issue "Required field is missing"
      else FieldOutcome.skip := rfl

theorem answersToPersist_nil (fields : List SField) :
    answersToPersist fields [] = [] := by
  rw [answersToPersist, List.filterMap_eq_nil_iff]
  intro f _
  rw [fieldStep_nil]
  cases f.required <;> simp

theorem firstPassIssues_nil_required (fields : List SField)
    (h : ∀ f ∈ fields, f.required = true) :
    firstPassIssues fields []
      = fields.map (fun f => ⟨f.id, "Required field is missing"⟩) := by
  induction fields with
  | nil => rfl
  | cons f fs ih =>
    have hf : f.required = true := h f (List.mem_cons_self _ _)
    have ih' := ih (fun g hg => h g (List.mem_cons_of_mem _ hg))
    simp only [firstPassIssues, List.filterMap_cons, fieldStep_nil, hf, if_true,
      List.map_cons] at *
    rw [ih']

theorem secondPassIssues_nil_required (fields : List SField)
    (h : ∀ f ∈ fields, f.required = true) :
    secondPassIssues fields []
      = fields.map (fun f => ⟨f.id, "Required field is missing"⟩) := by
  have hfilter : fields.filter (fun f => f.required) = fields :=
    List.filter_eq_self.mpr h
  rw [secondPassIssues, hfilter]
  have : ∀ f : SField,
      (if (answersToPersist fields []).any (fun p => p.fieldId == f.id) then none
        else some (⟨f.id, "Required field is missing"⟩ : Issue))
      = some ⟨f.id, "Required field is missing"⟩ := by
    intro f
    rw [answersToPersist_nil]
    simp
  simp only [this]
  exact List.filterMap_eq_map _ ▸ rfl

/-! ## Claims about the Answer Validation Engine -/

/-- C1, counterexample: on the schema holding the single required number field
`f1` and the answer `"abc"`, the first pass records the issue "Number is
required" for `f1`, yet the re-scan still adds "Required field is missing"
for the same field (the second pass keys on `answersToPersist`, not on
recorded issues); and on a one-required-field schema with no answers the
issue list has length 2, not 1 = field count. -/
theorem claim_C1_counterexample :
    ((validateAnswers [⟨"f1", "number", true, none⟩] [⟨"f1", .jstr "abc"⟩]).1
      = [⟨"f1", "Number is required"⟩, ⟨"f1", "Required field is missing"⟩]) ∧
    ¬ ((validateAnswers [⟨"f1", "short_text", true, none⟩] []).1.length
      = [(⟨"f1", "short_text", true, none⟩ : SField)].length) ∧
    ((validateAnswers [⟨"f1", "short_text", true, none⟩] []).1
      = [⟨"f1", "Required field is missing"⟩, ⟨"f1", "Required field is missing"⟩]) := by
  refine ⟨by decide, by decide, by decide⟩

/-- C1 (amended): the re-scan adds a "Required field is missing" issue for
every required field with no normalized answer, regardless of whether an
issue was already recorded for that field (so the same field can receive a
first-pass issue and the re-scan issue); in particular, for every schema
where every field is required and an empty answer set is validated, the
issue list length equals twice the field count, each issue carrying the
message "Required field is missing". -/
theorem claim_C1 :
    (∀ (fields : List SField) (answers : List Answer) (f : SField),
      f ∈ fields → f.required = true →
      (∀ p ∈ answersToPersist fields answers, p.fieldId ≠ f.id) →
      Issue.mk f.id "Required field is missing" ∈ (validateAnswers fields answers).1) ∧
    (∀ fields : List SField, (∀ f ∈ fields, f.required = true) →
      (validateAnswers fields []).1.length = 2 * fields.length ∧
      ∀ i ∈ (validateAnswers fields []).1, i.message = "Required field is missing") := by
  constructor
  · intro fields answers f hmem hreq hnop
    have hany : (answersToPersist fields answers).any (fun p => p.fieldId == f.id) = false := by
      rw [List.any_eq_false]
      intro p hp
      simpa using hnop p hp
    have hsec : Issue.mk f.id "Required field is missing" ∈ secondPassIssues fields answers := by
      rw [secondPassIssues, List.mem_filterMap]
      exact ⟨f, List.mem_filter.mpr ⟨hmem, hreq⟩, by rw [hany]; simp⟩
    simp only [validateAnswers, List.mem_append]
    exact Or.inr hsec
  · intro fields h
    have h0 : unknownFieldIssues fields [] = [] := rfl
    have h1 := firstPassIssues_nil_required fields h
    have h2 := secondPassIssues_nil_required fields h
    constructor
    · simp [validateAnswers, h0, h1, h2, Nat.two_mul]
    · intro i hi
      simp only [validateAnswers, h0, h1, h2, List.nil_append, List.mem_append,
        List.mem_map] at hi
      rcases hi with ⟨f, _, rfl⟩ | ⟨f, _, rfl⟩ <;> rfl

/-- C1, witness for the amended theorem: the required number field `f1`
answered with `"abc"` gets no normalized answer, so the re-scan adds the
missing-field issue; and the all-required singleton schema validated against
no answers yields two issues. -/
theorem claim_C1_witness :
    Issue.mk "f1" "Required field is missing"
      ∈ (validateAnswers [⟨"f1", "number", true, none⟩] [⟨"f1", .jstr "abc"⟩]).1 ∧
    (validateAnswers [⟨"f1", "short_text", true, none⟩] []).1.length
      = 2 * [(⟨"f1", "short_text", true, none⟩ : SField)].length :=
  ⟨claim_C1.1 [⟨"f1", "number", true, none⟩] [⟨"f1", .jstr "abc"⟩]
      ⟨"f1", "number", true, none⟩ (by decide) (by decide) (by decide),
    (claim_C1.2 [⟨"f1", "short_text", true, none⟩] (by decide)).1⟩

/-- C2: the string answer "42" on a required number field normalizes to the
numeric value 42 in the persisted answer list; the unparsable answer "abc"
on a required number field takes the required-message branch ("Number is
required", and "Number could not be parsed" is never emitted); "abc" on a
non-required number field yields exactly the issue "Number could not be
parsed". -/
theorem claim_C2 :
    (validateAnswers [⟨"n1", "number", true, none⟩] [⟨"n1", .jstr "42"⟩]
      = ([], [⟨"n1", .jnum 42⟩])) ∧
    (Issue.mk "n1" "Number is required"
      ∈ (validateAnswers [⟨"n1", "number", true, none⟩] [⟨"n1", .jstr "abc"⟩]).1) ∧
    (Issue.mk "n1" "Number could not be parsed"
      ∉ (validateAnswers [⟨"n1", "number", true, none⟩] [⟨"n1", .jstr "abc"⟩]).1) ∧
    (validateAnswers [⟨"n1", "number", false, none⟩] [⟨"n1", .jstr "abc"⟩]
      = ([⟨"n1", "Number could not be parsed"⟩], [])) := by
  refine ⟨by decide, by decide, by decide, by decide⟩

/-- C3: on a checkbox field declaring option values "a" and "b", the answer
["a","b"] produces zero issues and the normalized answer ["a","b"], and the
answer ["a","z"] produces exactly one aggregate issue for that field. -/
theorem claim_C3 :
    (validateAnswers [⟨"c1", "checkbox", false, some [⟨some "a"⟩, ⟨some "b"⟩]⟩]
        [⟨"c1", .jarr ["a", "b"]⟩]
      = ([], [⟨"c1", .jarr ["a", "b"]⟩])) ∧
    ((validateAnswers [⟨"c1", "checkbox", false, some [⟨some "a"⟩, ⟨some "b"⟩]⟩]
        [⟨"c1", .jarr ["a", "z"]⟩]).1
      = [⟨"c1", "One or more options are invalid"⟩]) := by
  refine ⟨by decide, by decide⟩

/-- C4: the pipeline is all-or-nothing: a non-empty issue list rejects the
submission carrying exactly the issues and hands nothing to persistence; an
empty issue list persists exactly the full normalized answer list. -/
theorem claim_C4 (fields : List SField) (answers : List Answer) :
    ((validateAnswers fields answers).1 ≠ [] →
      submitAnswers fields answers = .error (validateAnswers fields answers).1) ∧
    ((validateAnswers fields answers).1 = [] →
      submitAnswers fields answers = .ok (validateAnswers fields answers).2) ∧
    (∀ persisted, submitAnswers fields answers = .ok persisted →
      (validateAnswers fields answers).1 = [] ∧
      persisted = (validateAnswers fields answers).2) := by
  refine ⟨?_, ?_, ?_⟩
  · intro hne
    cases h : (validateAnswers fields answers).1 with
    | nil => exact absurd h hne
    | cons x xs => simp [submitAnswers, h]
  · intro hnil
    simp [submitAnswers, hnil]
  · intro persisted hok
    cases h : (validateAnswers fields answers).1 with
    | nil =>
      simp only [submitAnswers, h, List.length_nil, gt_iff_lt, Nat.lt_irrefl,
        if_false] at hok
      exact ⟨rfl, by cases hok; rfl⟩
    | cons x xs => simp [submitAnswers, h] at hok

/-- C4, witness: on the empty schema and empty answer list the issue list is
empty and the (empty) normalized list is persisted. -/
theorem claim_C4_witness :
    submitAnswers [] [] = .ok (validateAnswers [] []).2 :=
  (claim_C4 [] []).2.1 (by decide)

/-- C5: every answer whose fieldId occurs in no schema field yields the issue
"Field does not belong to this form", and no normalized answer ever carries
that fieldId. -/
theorem claim_C5 (fields : List SField) (answers : List Answer) (a : Answer)
    (ha : a ∈ answers) (hid : ∀ f ∈ fields, f.id ≠ a.fieldId) :
    Issue.mk a.fieldId "Field does not belong to this form"
      ∈ (validateAnswers fields answers).1 ∧
    ∀ p ∈ (validateAnswers fields answers).2, p.fieldId ≠ a.fieldId := by
  constructor
  · have hany : fields.any (fun f => f.id == a.fieldId) = false := by
      rw [List.any_eq_false]
      intro f hf
      simpa using hid f hf
    have hunk : Issue.mk a.fieldId "Field does not belong to this form"
        ∈ unknownFieldIssues fields answers := by
      rw [unknownFieldIssues, List.mem_filterMap]
      exact ⟨a, ha, by rw [hany]; simp⟩
    simp only [validateAnswers, List.mem_append]
    exact Or.inl (Or.inl hunk)
  · intro p hp
    simp only [validateAnswers] at hp
    rw [answersToPersist, List.mem_filterMap] at hp
    obtain ⟨f, hf, hmatch⟩ := hp
    cases hstep : fieldStep answers f with
    | keep v =>
      rw [hstep] at hmatch
      simp only [Option.some.injEq] at hmatch
      rw [← hmatch]
      exact hid f hf
    | issue m => rw [hstep] at hmatch; simp at hmatch
    | skip => rw [hstep] at hmatch; simp at hmatch

/-- C5, witness: the answer for the unknown field "zz" on a one-field schema
is flagged as not belonging to the form. -/
theorem claim_C5_witness :
    Issue.mk "zz" "Field does not belong to this form"
      ∈ (validateAnswers [⟨"f1", "short_text", false, none⟩]
          [⟨"zz", .jstr "hi"⟩]).1 :=
  (claim_C5 [⟨"f1", "short_text", false, none⟩] [⟨"zz", .jstr "hi"⟩]
      ⟨"zz", .jstr "hi"⟩ (by decide) (by decide)).1

/-- C10: a submission body with an empty answers array fails the zod parse
with the issue "At least one answer is required", so the handler returns at
the parse boundary and the Answer Validation Engine never runs. -/
theorem claim_C10 (body : SubmissionBody) (formFields : Option (List SField))
    (h : body.answers = []) :
    handleSubmission body formFields = .parseError (createResponseSchemaIssues body) ∧
    ParseIssue.mk "answers" "At least one answer is required"
      ∈ createResponseSchemaIssues body ∧
    (∀ issues, handleSubmission body formFields ≠ .validationError issues) ∧
    (∀ persisted, handleSubmission body formFields ≠ .created persisted) := by
  have hmem : ParseIssue.mk "answers" "At least one answer is required"
      ∈ createResponseSchemaIssues body := by
    simp [createResponseSchemaIssues, h]
  have hpos : 0 < (createResponseSchemaIssues body).length :=
    List.length_pos.mpr (List.ne_nil_of_mem hmem)
  have hres : handleSubmission body formFields
      = .parseError (createResponseSchemaIssues body) := by
    simp [handleSubmission, hpos]
  refine ⟨hres, hmem, ?_, ?_⟩
  · intro issues hne
    rw [hres] at hne
    exact PostResult.noConfusion hne
  · intro persisted hne
    rw [hres] at hne
    exact PostResult.noConfusion hne

/-- C10, witness: the empty-answers body is rejected at the parse boundary. -/
theorem claim_C10_witness :
    handleSubmission ⟨none, [], none, none⟩ none
      = .parseError (createResponseSchemaIssues ⟨none, [], none, none⟩) :=
  (claim_C10 ⟨none, [], none, none⟩ none rfl).1

/-! ## Helper lemmas about the builder reducer -/

theorem eraseIdx_insertIdx_swap_up {α : Type _} [Inhabited α] :
    ∀ (j : Nat) (l : List α), 0 < j → j < l.length →
      (l.eraseIdx j).insertIdx (j - 1) l[j]!
        = l.take (j - 1) ++ [l[j]!, l[j - 1]!] ++ l.drop (j + 1) := by
  intro j l
  induction l generalizing j with
  | nil => intro _ h2; simp at h2
  | cons a t ih =>
    intro h1 h2
    match j, h1 with
    | 1, _ =>
      match t, h2 with
      | b :: t', _ =>
        simp [List.eraseIdx, List.insertIdx_zero]
    | (k + 2), _ =>
      have h2' : k + 1 < t.length := by
        simp only [List.length_cons] at h2
        omega
      have ih' : List.insertIdx k t[k + 1]! (t.eraseIdx (k + 1))
          = List.take k t ++ [t[k + 1]!, t[k]!] ++ List.drop (k + 2) t :=
        ih (k + 1) (Nat.succ_pos k) h2'
      have e1 : k + 2 - 1 = k + 1 := rfl
      simp only [e1, List.eraseIdx_cons_succ, List.insertIdx_succ_cons,
        List.getElem!_cons_succ, List.take_succ_cons, List.drop_succ_cons,
        List.cons_append]
      rw [ih']

theorem eraseIdx_insertIdx_swap_down {α : Type _} [Inhabited α] :
    ∀ (j : Nat) (l : List α), j + 1 < l.length →
      (l.eraseIdx j).insertIdx (j + 1) l[j]!
        = l.take j ++ [l[j + 1]!, l[j]!] ++ l.drop (j + 2) := by
  intro j l
  induction l generalizing j with
  | nil => intro h; simp at h
  | cons a t ih =>
    intro h
    match j with
    | 0 =>
      match t, h with
      | b :: t', _ =>
        simp [List.eraseIdx, List.insertIdx_succ_cons, List.insertIdx_zero]
    | k + 1 =>
      have h' : k + 1 < t.length := by simpa using h
      have ih' := ih k h'
      simp only [List.eraseIdx_cons_succ, List.insertIdx_succ_cons,
        List.getElem!_cons_succ, List.take_succ_cons, List.drop_succ_cons,
        List.cons_append] at *
      rw [ih']

/-! ## Claims about the builder reducer -/

/-- C6: DUPLICATE_FIELD inserts, right after the located field, a clone whose
label is the source label run through the single-"(copy)"-marker suffix rule:
a field labeled "Name" yields a clone labeled "Name (copy)", and a field
labeled "Name (copy)" again yields a clone labeled "Name (copy)". -/
theorem claim_C6 (fresh : Nat → String) (S : BuilderState) (i : String)
    (f : FormField) (h : S.fields.find? (fun g => g.id == i) = some f) :
    (builderReducer fresh S (.DUPLICATE_FIELD i)).fields
      = S.fields.insertIdx (S.fields.findIdx (fun g => g.id == f.id) + 1)
          (duplicateClone fresh f) ∧
    (duplicateClone fresh f).label = dupLabel f.label ∧
    (f.label = "Name" → (duplicateClone fresh f).label = "Name (copy)") ∧
    (f.label = "Name (copy)" → (duplicateClone fresh f).label = "Name (copy)") := by
  refine ⟨by simp [builderReducer, h], rfl, ?_, ?_⟩
  · intro hl
    show dupLabel f.label = "Name (copy)"
    rw [hl]
    decide
  · intro hl
    show dupLabel f.label = "Name (copy)"
    rw [hl]
    decide

/-- C6, witness: duplicating the field "a" (labeled "Name") of `sampleState`
produces a clone labeled "Name (copy)". -/
theorem claim_C6_witness :
    (duplicateClone fresh0 sampleField).label = "Name (copy)" :=
  (claim_C6 fresh0 sampleState "a" sampleField (by decide)).2.2.1 rfl

/-- C7: REORDER_FIELD on an absent id, on the first field with direction up,
or on the last field with direction down, returns the state unchanged; on any
other field it swaps that field with exactly its adjacent neighbor in the
named direction; all non-fields state components are unchanged in every
case. -/
theorem claim_C7 (fresh : Nat → String) (S : BuilderState) (i : String)
    (direction : ReorderDirection) :
    (S.fields.findIdx? (fun f => f.id == i) = none →
      builderReducer fresh S (.REORDER_FIELD i direction) = S) ∧
    (S.fields.findIdx? (fun f => f.id == i) = some 0 → direction = .up →
      builderReducer fresh S (.REORDER_FIELD i direction) = S) ∧
    (∀ j, S.fields.findIdx? (fun f => f.id == i) = some j →
      j + 1 = S.fields.length → direction = .down →
      builderReducer fresh S (.REORDER_FIELD i direction) = S) ∧
    (∀ j, S.fields.findIdx? (fun f => f.id == i) = some j → direction = .up →
      0 < j →
      (builderReducer fresh S (.REORDER_FIELD i direction)).fields
        = S.fields.take (j - 1) ++ [S.fields[j]!, S.fields[j - 1]!]
            ++ S.fields.drop (j + 1)) ∧
    (∀ j, S.fields.findIdx? (fun f => f.id == i) = some j → direction = .down →
      j + 1 < S.fields.length →
      (builderReducer fresh S (.REORDER_FIELD i direction)).fields
        = S.fields.take j ++ [S.fields[j + 1]!, S.fields[j]!]
            ++ S.fields.drop (j + 2)) ∧
    ((builderReducer fresh S (.REORDER_FIELD i direction)).selectedFieldId
        = S.selectedFieldId ∧
      (builderReducer fresh S (.REORDER_FIELD i direction)).formMeta = S.formMeta ∧
      (builderReducer fresh S (.REORDER_FIELD i direction)).mode = S.mode ∧
      (builderReducer fresh S (.REORDER_FIELD i direction)).theme = S.theme) := by
  refine ⟨?_, ?_, ?_, ?_, ?_, ?_⟩
  · intro h
    simp [builderReducer, h]
  · intro h hd
    subst hd
    simp [builderReducer, h]
  · intro j h hlast hd
    subst hd
    have hj : j < S.fields.length := (List.findIdx?_eq_some_iff_findIdx_eq.mp h).1
    simp only [builderReducer, h, reduceCtorEq, if_false]
    rw [if_pos (by omega : ((j : Int) + 1 < 0 ∨ (S.fields.length : Int) ≤ (j : Int) + 1))]
  · intro j h hd hpos
    subst hd
    have hj : j < S.fields.length := (List.findIdx?_eq_some_iff_findIdx_eq.mp h).1
    have hcond : ¬ (((j : Int) - 1 < 0) ∨ ((S.fields.length : Int) ≤ (j : Int) - 1)) := by
      omega
    have hget : S.fields[j]? = some S.fields[j] := List.getElem?_eq_getElem hj
    have htn : (((j : Int) - 1)).toNat = j - 1 := by omega
    have hbang : S.fields[j]! = S.fields[j] := getElem!_pos S.fields j hj
    simp only [builderReducer, h, if_true, reduceIte, hcond, if_false, hget, htn]
    rw [← hbang]
    exact eraseIdx_insertIdx_swap_up j S.fields hpos hj
  · intro j h hd hlt
    subst hd
    have hj : j < S.fields.length := (List.findIdx?_eq_some_iff_findIdx_eq.mp h).1
    have hcond : ¬ (((j : Int) + 1 < 0) ∨ ((S.fields.length : Int) ≤ (j : Int) + 1)) := by
      omega
    have hget : S.fields[j]? = some S.fields[j] := List.getElem?_eq_getElem hj
    have htn : (((j : Int) + 1)).toNat = j + 1 := by omega
    have hbang : S.fields[j]! = S.fields[j] := getElem!_pos S.fields j hj
    simp only [builderReducer, h, reduceCtorEq, if_false, hcond, hget, htn]
    rw [← hbang]
    exact eraseIdx_insertIdx_swap_down j S.fields hlt
  · cases hfind : S.fields.findIdx? (fun f => f.id == i) with
    | none => simp [builderReducer, hfind]
    | some j =>
      simp only [builderReducer, hfind]
      by_cases hc : ((if direction = .up then (j : Int) - 1 else (j : Int) + 1) < 0 ∨
          (S.fields.length : Int) ≤ (if direction = .up then (j : Int) - 1
            else (j : Int) + 1))
      · rw [if_pos hc]
        exact ⟨rfl, rfl, rfl, rfl⟩
      · rw [if_neg hc]
        cases hg : S.fields[j]? <;> simp [hg]

/-- C7, witness: in the two-field state, reordering the second field up swaps
it with the first, and reordering an absent id is a no-op. -/
theorem claim_C7_witness :
    (builderReducer fresh0
        { sampleState with
          fields := [sampleField, { sampleField with id := "b", label := "Other" }] }
        (.REORDER_FIELD "b" .up)).fields
      = [{ sampleField with id := "b", label := "Other" }, sampleField] := by
  have h := (claim_C7 fresh0
      { sampleState with
        fields := [sampleField, { sampleField with id := "b", label := "Other" }] }
      "b" .up).2.2.2.1 1 (by decide) rfl (by decide)
  simpa using h

/-- C8: UPDATE_THEME_TOKEN modifies one attribute of one token of the active
theme mode's snapshot only: the inactive mode's snapshot, the active
snapshot's surfaces, every other tag's token, every other attribute of the
updated token, and all non-theme state components are unchanged. -/
theorem claim_C8 (fresh : Nat → String) (S : BuilderState) (tag : ThemeTag)
    (key : TokenKey) (v : TVal) :
    (builderReducer fresh S (.UPDATE_THEME_TOKEN tag key v)).fields = S.fields ∧
    (builderReducer fresh S (.UPDATE_THEME_TOKEN tag key v)).selectedFieldId
      = S.selectedFieldId ∧
    (builderReducer fresh S (.UPDATE_THEME_TOKEN tag key v)).formMeta = S.formMeta ∧
    (builderReducer fresh S (.UPDATE_THEME_TOKEN tag key v)).mode = S.mode ∧
    (builderReducer fresh S (.UPDATE_THEME_TOKEN tag key v)).theme.mode = S.theme.mode ∧
    (∀ m, m ≠ S.theme.mode →
      (builderReducer fresh S (.UPDATE_THEME_TOKEN tag key v)).theme.palette m
        = S.theme.palette m) ∧
    (((builderReducer fresh S (.UPDATE_THEME_TOKEN tag key v)).theme.palette
        S.theme.mode).background = (S.theme.palette S.theme.mode).background ∧
      ((builderReducer fresh S (.UPDATE_THEME_TOKEN tag key v)).theme.palette
        S.theme.mode).panel = (S.theme.palette S.theme.mode).panel ∧
      ((builderReducer fresh S (.UPDATE_THEME_TOKEN tag key v)).theme.palette
        S.theme.mode).card = (S.theme.palette S.theme.mode).card ∧
      ((builderReducer fresh S (.UPDATE_THEME_TOKEN tag key v)).theme.palette
        S.theme.mode).border = (S.theme.palette S.theme.mode).border ∧
      ((builderReducer fresh S (.UPDATE_THEME_TOKEN tag key v)).theme.palette
        S.theme.mode).text = (S.theme.palette S.theme.mode).text ∧
      ((builderReducer fresh S (.UPDATE_THEME_TOKEN tag key v)).theme.palette
        S.theme.mode).muted = (S.theme.palette S.theme.mode).muted) ∧
    (∀ t, t ≠ tag →
      ((builderReducer fresh S (.UPDATE_THEME_TOKEN tag key v)).theme.palette
        S.theme.mode).tokens t = (S.theme.palette S.theme.mode).tokens t) ∧
    (((builderReducer fresh S (.UPDATE_THEME_TOKEN tag key v)).theme.palette
        S.theme.mode).tokens tag
      = setTokenAttr ((S.theme.palette S.theme.mode).tokens tag) key v) ∧
    (∀ k, k ≠ key →
      getTokenAttr (((builderReducer fresh S (.UPDATE_THEME_TOKEN tag key v)).theme.palette
        S.theme.mode).tokens tag) k
        = getTokenAttr ((S.theme.palette S.theme.mode).tokens tag) k) := by
  refine ⟨rfl, rfl, rfl, rfl, rfl, ?_, ?_, ?_, ?_, ?_⟩
  · intro m hm
    simp [builderReducer, hm]
  · refine ⟨?_, ?_, ?_, ?_, ?_, ?_⟩ <;> simp [builderReducer]
  · intro t ht
    simp [builderReducer, ht]
  · simp [builderReducer]
  · intro k hk
    simp only [builderReducer, if_pos rfl]
    cases key <;> cases k <;>
      first
      | exact absurd rfl hk
      | simp [setTokenAttr, getTokenAttr]

/-- C8, witness: updating the label-tag color while light mode is active
leaves the dark snapshot of `sampleState` unchanged. -/
theorem claim_C8_witness :
    (builderReducer fresh0 sampleState
        (.UPDATE_THEME_TOKEN .label .color (.str "#ff0000"))).theme.palette .dark
      = sampleState.theme.palette .dark :=
  (claim_C8 fresh0 sampleState .label .color
      (.str "#ff0000")).2.2.2.2.2.1 .dark (by decide)

/-- C9, counterexample: on a state whose selection dangles on the id "x"
while no field carries that id, REMOVE_FIELD "x" clears the selection to
null, so the result is not deep-equal to the input state. -/
theorem claim_C9_counterexample :
    danglingSelectionState.fields = [] ∧
    builderReducer fresh0 danglingSelectionState (.REMOVE_FIELD "x")
      ≠ danglingSelectionState := by
  refine ⟨rfl, fun h => ?_⟩
  have h2 := congrArg BuilderState.selectedFieldId h
  simp [builderReducer, danglingSelectionState] at h2

/-- C9 (amended): for every builder state and any id occurring in no field,
DUPLICATE_FIELD, UPDATE_FIELD and REORDER_FIELD are exact no-ops;
REMOVE_FIELD leaves the field list and all other components unchanged and is
an exact no-op unless the missing id happens to equal the current selection,
in which case only the selection is cleared to null. -/
theorem claim_C9 (fresh : Nat → String) (S : BuilderState) (i : String)
    (changes : FieldChanges) (direction : ReorderDirection)
    (h : ∀ f ∈ S.fields, f.id ≠ i) :
    builderReducer fresh S (.DUPLICATE_FIELD i) = S ∧
    builderReducer fresh S (.UPDATE_FIELD i changes) = S ∧
    builderReducer fresh S (.REORDER_FIELD i direction) = S ∧
    (builderReducer fresh S (.REMOVE_FIELD i)).fields = S.fields ∧
    (builderReducer fresh S (.REMOVE_FIELD i)).formMeta = S.formMeta ∧
    (builderReducer fresh S (.REMOVE_FIELD i)).mode = S.mode ∧
    (builderReducer fresh S (.REMOVE_FIELD i)).theme = S.theme ∧
    (S.selectedFieldId ≠ some i → builderReducer fresh S (.REMOVE_FIELD i) = S) ∧
    (S.selectedFieldId = some i →
      (builderReducer fresh S (.REMOVE_FIELD i)).selectedFieldId = none) := by
  have hfind : S.fields.find? (fun f => f.id == i) = none := by
    rw [List.find?_eq_none]
    intro f hf
    simpa using h f hf
  have hfindIdx : S.fields.findIdx? (fun f => f.id == i) = none := by
    rw [List.findIdx?_eq_none_iff]
    intro f hf
    simpa using h f hf
  have hmap : (S.fields.map fun f =>
      if f.id = i then applyFieldChanges f changes else f) = S.fields := by
    have := List.map_congr_left (l := S.fields)
      (f := fun f => if f.id = i then applyFieldChanges f changes else f)
      (g := id) (fun f hf => by simp [h f hf])
    simpa using this
  have hfilter : S.fields.filter (fun f => f.id != i) = S.fields := by
    rw [List.filter_eq_self]
    intro f hf
    simpa using h f hf
  refine ⟨by simp [builderReducer, hfind], by simp [builderReducer, hmap],
    by simp [builderReducer, hfindIdx], by simp [builderReducer, hfilter],
    rfl, rfl, rfl, ?_, ?_⟩
  · intro hsel
    simp [builderReducer, hfilter, hsel]
  · intro hsel
    simp [builderReducer, hsel]

/-- C9, witness: on `sampleState` (single field "a", no selection), the four
actions with the absent id "zz" are no-ops. -/
theorem claim_C9_witness :
    builderReducer fresh0 sampleState (.DUPLICATE_FIELD "zz") = sampleState ∧
    builderReducer fresh0 sampleState (.REMOVE_FIELD "zz") = sampleState := by
  have h := claim_C9 fresh0 sampleState "zz" {} .up (by decide)
  exact ⟨h.1, h.2.2.2.2.2.2.2.1 (by decide)⟩

end FormApp
